import Mathlib

/-!
Shallow embedding of the tftp-rs client (src/tftp/client.rs, the mio variant,
and src/tftp/client_new.rs, the rotor variant).

Socket, poll and sink operations are external; each step of the state machine
consumes an `Env` record holding the outcomes the environment would give to
those calls.  Effects on those collaborators (datagrams sent, payloads written
to the sink, readiness re-registrations) are returned alongside the new state.
A Rust panic (`unwrap` failure, `unimplemented!`, `unreachable!`) is made
explicit as a `panic` result constructor.  `u16` arithmetic is modelled as
arithmetic modulo 2^16.
-/

namespace Tftp

/-- Socket addresses are abstract; only identity matters to the client. -/
abbrev SocketAddr := Nat

/-- I/O errors are abstract; only identity matters to the client. -/
abbrev IoError := Nat

/-- Transfer modes (packet.rs `Mode`; the spec's closed enumeration). -/
inductive Mode where
  | Octet
  | NetAscii
deriving DecidableEq, Repr

/-- packet.rs `ErrorPacket`: code plus message bytes. -/
structure ErrorPacket where
  code : Nat
  message : List Nat
deriving DecidableEq, Repr

/-- client.rs / client_new.rs `Error`: the module's own error enumeration. -/
inductive Err where
  | Io : IoError → Err
  | Server : ErrorPacket → Err
deriving DecidableEq, Repr

/-- packet.rs `DataPacketOctet`: a block id and the payload bytes. -/
structure DataPacketOctet where
  block_id : Nat
  data : List Nat
deriving DecidableEq, Repr

/-- packet.rs `Opcode`. -/
inductive Opcode where
  | RRQ
  | WRQ
  | DATA
  | ACK
  | ERROR
deriving DecidableEq, Repr

def MAX_DATA_SIZE : Nat := 512

/-- Modelled from the spec: `RawPacket::opcode` lives in packet.rs, which is not
among the sources.  Spec section 6: a 2-byte big-endian opcode, values 1..5;
anything else is unrecognized. -/
def rawOpcode (raw : List Nat) : Option Opcode :=
  match raw with
  | b0 :: b1 :: _ =>
    match b0 * 256 + b1 with
    | 1 => some Opcode.RRQ
    | 2 => some Opcode.WRQ
    | 3 => some Opcode.DATA
    | 4 => some Opcode.ACK
    | 5 => some Opcode.ERROR
    | _ => none
  | _ => none

/-- Modelled from the spec: `DataPacketOctet` decoding lives in packet.rs, which
is not among the sources.  Spec section 6: after the opcode (3 = Data) comes a
big-endian u16 block id, then the raw payload bytes; shorter datagrams are
truncated and fail to decode. -/
def decodeData (raw : List Nat) : Option DataPacketOctet :=
  match raw with
  | b0 :: b1 :: b2 :: b3 :: rest =>
    if b0 * 256 + b1 = 3 then some ⟨b2 * 256 + b3, rest⟩ else none
  | _ => none

/-- Modelled from the spec: `AckPacket` encoding lives in packet.rs, which is
not among the sources.  Spec section 6: opcode 4 then a big-endian u16 block
id. -/
def encodeAck (id : Nat) : List Nat := [0, 4, id / 256 % 256, id % 256]

/-- Outcome of a `socket.recv_from` call, supplied by the environment. -/
inductive RecvOutcome where
  | ioErr : IoError → RecvOutcome
  | wouldBlock : RecvOutcome
  | datagram : List Nat → SocketAddr → RecvOutcome
deriving DecidableEq, Repr

/-- Result of a fallible client operation; `panic` records a Rust panic
(`unwrap` on `None`/`Err`, or `unimplemented!`). -/
inductive Res (α : Type) where
  | ok : α → Res α
  | err : Err → Res α
  | panic : Res α
deriving DecidableEq, Repr

/-- Environment outcomes for the external calls one state-machine step can
make: the raw `send_to` results for the read request and the ack (Ok none is
the would-block case), the poll re-registration result, the sink
`write_all` result, the `recv_from` outcome, and whether the readiness event
that triggered this step was a writable one. -/
structure Env where
  recv : RecvOutcome
  sendRrq : Except IoError (Option Nat)
  sendAck : Except IoError (Option Nat)
  rereg : Except IoError Unit
  writeRes : Except IoError Unit
  isWritable : Bool

/-- Readiness interest used in (re-)registration. -/
inductive Interest where
  | readable
  | writable
deriving DecidableEq, Repr

/-- A read-request send as observed on the wire: path string, mode, and the
destination address. -/
structure RrqSend where
  path : String
  mode : Mode
  dest : SocketAddr
deriving DecidableEq, Repr

/-- Externally observable effects of one state-machine step. -/
structure Effects where
  rrqSends : List RrqSend
  ackSends : List (Nat × SocketAddr)
  writes : List (List Nat)
  reregs : List Interest
deriving DecidableEq, Repr

def noEffects : Effects := ⟨[], [], [], []⟩

/-- `std::path::Path`, abstracted to its `to_str` view: `none` when the path
is not valid UTF-8. -/
structure Path where
  toStr : Option String
deriving DecidableEq, Repr

/-! ## client_new.rs (rotor variant) -/

/-- client_new.rs `InternalClient`: socket plus tracked remote address (the
socket itself is external). -/
structure InternalClient where
  remote_addr : SocketAddr
deriving DecidableEq, Repr

/-- client_new.rs `InternalClient::send_read_request`: encodes and sends an
RRQ to `remote_addr`; `send_to`'s would-block case is folded into success by
`.map(|_| ())`.  Returns the mapped result and the observed send. -/
def InternalClient.send_read_request (c : InternalClient) (p : String) (m : Mode)
    (raw : Except IoError (Option Nat)) : Except IoError Unit × RrqSend :=
  (raw.map fun _ => (), ⟨p, m, c.remote_addr⟩)

/-- client_new.rs `InternalClient::send_ack`: encodes and sends an ack to
`remote_addr`; Ok none is the would-block outcome. -/
def InternalClient.send_ack (c : InternalClient) (id : Nat)
    (raw : Except IoError (Option Nat)) :
    Except IoError (Option Unit) × (Nat × SocketAddr) :=
  (raw.map fun o => o.map fun _ => (), (id, c.remote_addr))

/-- client_new.rs `InternalClient::receive_data`: non-blocking receive into a
fresh 516-byte buffer.  On a datagram, the sender becomes the new remote
address, then the opcode is inspected: a Data packet is decoded with
`.unwrap()` (panic on failure); every other opcode hits `unimplemented!()`
(panic). -/
def InternalClient.receive_data (c : InternalClient) (r : RecvOutcome) :
    InternalClient × Res (Option DataPacketOctet) :=
  match r with
  | .ioErr e => (c, .err (.Io e))
  | .wouldBlock => (c, .ok none)
  | .datagram dg sender =>
    let c2 : InternalClient := { c with remote_addr := sender }
    let n := min dg.length (MAX_DATA_SIZE + 4)
    let raw := dg.take n
    match rawOpcode raw with
    | some Opcode.DATA =>
      match decodeData raw with
      | some p => (c2, .ok (some p))
      | none => (c2, .panic)
    | _ => (c2, .panic)

/-- client_new.rs `ClientState`: the session data threaded through the machine
(the sink writer is external; writes appear in `Effects`). -/
structure ClientState where
  client : InternalClient
  path : Path
  mode : Mode
deriving DecidableEq, Repr

/-- client_new.rs `Client`: the rotor machine's state enumeration. -/
inductive ClientNew where
  | Idle : ClientState → ClientNew
  | ReceivingData : ClientState → Nat → ClientNew
  | SendAck : ClientState → DataPacketOctet → ClientNew
deriving DecidableEq, Repr

/-- Outcome of one `Machine::ready` call: continue with a new state
(`Response::ok`), stop the loop (`Client::finish`, carrying the context error
the `mtry!` macro may have recorded), or panic. -/
inductive RespNew where
  | ok : ClientNew → RespNew
  | done : Option Err → RespNew
  | panic : RespNew
deriving DecidableEq, Repr

/-- client_new.rs `Machine::ready`, `Client::SendAck` arm (also reached by
direct recursion from the `ReceivingData` arm when the block id matches). -/
def readySendAck (state : ClientState) (dp : DataPacketOctet) (env : Env) :
    RespNew × Effects :=
  let sent := state.client.send_ack dp.block_id env.sendAck
  match sent.1 with
  | .error e => (.done (some (.Io e)), { noEffects with ackSends := [sent.2] })
  | .ok none =>
    match env.rereg with
    | .error e => (.done (some (.Io e)), { noEffects with ackSends := [sent.2] })
    | .ok _ =>
      (.ok (.SendAck state dp), { noEffects with ackSends := [sent.2], reregs := [.writable] })
  | .ok (some _) =>
    match env.writeRes with
    | .error e => (.done (some (.Io e)), { noEffects with ackSends := [sent.2] })
    | .ok _ =>
      if dp.data.length < MAX_DATA_SIZE then
        (.done none, { noEffects with ackSends := [sent.2], writes := [dp.data] })
      else
        if env.isWritable then
          match env.rereg with
          | .error e =>
            (.done (some (.Io e)),
             { noEffects with ackSends := [sent.2], writes := [dp.data] })
          | .ok _ =>
            (.ok (.ReceivingData state ((dp.block_id + 1) % 65536)),
             { noEffects with ackSends := [sent.2], writes := [dp.data], reregs := [.readable] })
        else
          (.ok (.ReceivingData state ((dp.block_id + 1) % 65536)),
           { noEffects with ackSends := [sent.2], writes := [dp.data] })

/-- client_new.rs `Machine::ready`: one readiness event dispatched into the
rotor state machine.  The `Idle` arm sends the read request with the mode
hardcoded to `Mode::Octet` after `path.to_str().unwrap()`. -/
def ClientNew.ready (m : ClientNew) (env : Env) : RespNew × Effects :=
  match m with
  | .Idle state =>
    match state.path.toStr with
    | none => (.panic, noEffects)
    | some p =>
      let sent := state.client.send_read_request p Mode.Octet env.sendRrq
      match sent.1 with
      | .error e => (.done (some (.Io e)), { noEffects with rrqSends := [sent.2] })
      | .ok _ =>
        match env.rereg with
        | .error e => (.done (some (.Io e)), { noEffects with rrqSends := [sent.2] })
        | .ok _ =>
          (.ok (.ReceivingData state 1), { noEffects with rrqSends := [sent.2], reregs := [.readable] })
  | .ReceivingData state current_id =>
    let recvd := state.client.receive_data env.recv
    let state2 : ClientState := { state with client := recvd.1 }
    match recvd.2 with
    | .err e => (.done (some e), noEffects)
    | .panic => (.panic, noEffects)
    | .ok none => (.ok (.ReceivingData state2 current_id), noEffects)
    | .ok (some dp) =>
      if current_id = dp.block_id then
        readySendAck state2 dp env
      else
        (.ok (.ReceivingData state2 current_id), noEffects)
  | .SendAck state dp => readySendAck state dp env

/-- client_new.rs: running the rotor loop from a machine state over the
sequence of readiness events the environment will deliver.  `pending` means
the event list ran out while the machine was still waiting. -/
inductive RunNewRes where
  | finished : Option Err → RunNewRes
  | pending : RunNewRes
  | panic : RunNewRes
deriving DecidableEq, Repr

def runNew (m : ClientNew) : List Env → RunNewRes
  | [] => .pending
  | env :: rest =>
    match m.ready env with
    | (.done oe, _) => .finished oe
    | (.panic, _) => .panic
    | (.ok m2, _) => runNew m2 rest

/-- What the caller of the public client_new.rs `get` observes: the function
returns unit (any error recorded in the loop context is discarded), or the
process panics, or the loop never finishes. -/
inductive GetNewRes where
  | unit : GetNewRes
  | pending : GetNewRes
  | panic : GetNewRes
deriving DecidableEq, Repr

/-- The hardcoded "127.0.0.1:69" server address of both public `get`
functions, abstracted. -/
def serverAddr : SocketAddr := 69

/-- client_new.rs `pub fn get`: builds the machine (the initial registration
is unwrapped, so its failure panics), runs the loop, unwraps the loop result
and returns `()` without consulting the context's recorded error. -/
def getNew (path : Path) (mode : Mode) (reg0 : Except IoError Unit)
    (envs : List Env) : GetNewRes :=
  match reg0 with
  | .error _ => .panic
  | .ok _ =>
    match runNew (.Idle ⟨⟨serverAddr⟩, path, mode⟩) envs with
    | .finished _ => .unit
    | .pending => .pending
    | .panic => .panic

/-! ## client.rs (mio variant) -/

/-- client.rs `InternalClient`: remote address plus the two reusable buffers
(`buffer_data` is an Option because `receive_data` takes it out and only the
ack-success path puts it back). -/
structure InternalClientOld where
  remote_addr : SocketAddr
  buffer_data : Option (List Nat)
  buffer_ack : List Nat
deriving DecidableEq, Repr

/-- client.rs `InternalClient::new`. -/
def InternalClientOld.new (addr : SocketAddr) : InternalClientOld :=
  ⟨addr, some (List.replicate (MAX_DATA_SIZE + 4) 0), List.replicate (MAX_DATA_SIZE + 4) 0⟩

/-- client.rs `InternalClient::put_buffer_data`. -/
def InternalClientOld.put_buffer_data (c : InternalClientOld) (buf : List Nat) :
    InternalClientOld :=
  { c with buffer_data := some buf }

/-- decodedpacket.rs `DecodedPacket`: the decoded view together with the
underlying receive buffer it borrows from (`into_inner` returns the buffer). -/
structure DecodedPacket where
  packet : DataPacketOctet
  buffer : List Nat
deriving DecidableEq, Repr

/-- client.rs `InternalClient::send_ack`: the ack is encoded into the taken
`buffer_ack`, which is put back after the send attempt. -/
def InternalClientOld.send_ack (c : InternalClientOld) (id : Nat)
    (raw : Except IoError (Option Nat)) :
    InternalClientOld × Except IoError (Option Unit) × (Nat × SocketAddr) :=
  ({ c with buffer_ack := encodeAck id },
   raw.map fun o => o.map fun _ => (), (id, c.remote_addr))

/-- client.rs `InternalClient::receive_data`: takes `buffer_data` out
(allocating a fresh 516-byte buffer when absent), receives into it, records
the sender as the new remote address, and decodes: a Data packet via
`DecodedPacket::decode(..).unwrap()` (panic on failure), every other opcode
via `unimplemented!()` (panic).  The buffer is not put back here. -/
def InternalClientOld.receive_data (c : InternalClientOld) (r : RecvOutcome) :
    InternalClientOld × Res (Option DecodedPacket) :=
  let buf := c.buffer_data.getD (List.replicate (MAX_DATA_SIZE + 4) 0)
  let c1 : InternalClientOld := { c with buffer_data := none }
  match r with
  | .ioErr e => (c1, .err (.Io e))
  | .wouldBlock => (c1, .ok none)
  | .datagram dg sender =>
    let c2 : InternalClientOld := { c1 with remote_addr := sender }
    let n := min dg.length buf.length
    let newBuf := dg.take n ++ buf.drop n
    let raw := newBuf.take n
    match rawOpcode raw with
    | some Opcode.DATA =>
      match decodeData raw with
      | some p => (c2, .ok (some ⟨p, newBuf⟩))
      | none => (c2, .panic)
    | _ => (c2, .panic)

/-- client.rs `ClientStates`. -/
inductive ClientStatesOld where
  | SendReadRequest : Path → Mode → ClientStatesOld
  | ReceivingData : Nat → ClientStatesOld
  | SendAck : DecodedPacket → ClientStatesOld
  | Done : ClientStatesOld
deriving DecidableEq, Repr

/-- client.rs `ClientStates::is_done`. -/
def ClientStatesOld.is_done : ClientStatesOld → Bool
  | .Done => true
  | _ => false

/-- Outcome of one client.rs `Client::handle_event` call: `Ok(next_state)`,
`Err` (propagated by `try!`), or a panic. -/
inductive StepOld where
  | ok : ClientStatesOld → StepOld
  | err : Err → StepOld
  | panic : StepOld
deriving DecidableEq, Repr

/-- client.rs `Client::handle_event`, `ClientStates::SendAck` arm (also
reached by direct recursion from the `ReceivingData` arm when the block id
matches). -/
def handleSendAckOld (c : InternalClientOld) (dp : DecodedPacket) (env : Env) :
    StepOld × InternalClientOld × Effects :=
  let sent := c.send_ack dp.packet.block_id env.sendAck
  match sent.2.1 with
  | .error e => (.err (.Io e), sent.1, { noEffects with ackSends := [sent.2.2] })
  | .ok none =>
    match env.rereg with
    | .error e => (.err (.Io e), sent.1, { noEffects with ackSends := [sent.2.2] })
    | .ok _ =>
      (.ok (.SendAck dp), sent.1, { noEffects with ackSends := [sent.2.2], reregs := [.writable] })
  | .ok (some _) =>
    match env.writeRes with
    | .error e => (.err (.Io e), sent.1, { noEffects with ackSends := [sent.2.2] })
    | .ok _ =>
      let data_len := dp.packet.data.length
      let next_id := (dp.packet.block_id + 1) % 65536
      let c2 := sent.1.put_buffer_data dp.buffer
      if data_len < MAX_DATA_SIZE then
        (.ok .Done, c2, { noEffects with ackSends := [sent.2.2], writes := [dp.packet.data] })
      else
        if env.isWritable then
          match env.rereg with
          | .error e =>
            (.err (.Io e), c2, { noEffects with ackSends := [sent.2.2], writes := [dp.packet.data] })
          | .ok _ =>
            (.ok (.ReceivingData next_id), c2,
             { noEffects with ackSends := [sent.2.2], writes := [dp.packet.data], reregs := [.readable] })
        else
          (.ok (.ReceivingData next_id), c2,
           { noEffects with ackSends := [sent.2.2], writes := [dp.packet.data] })

/-- client.rs `Client::handle_event`: one readiness event dispatched into the
state machine; the `Done` arm is `unreachable!()`. -/
def handle_event (c : InternalClientOld) (st : ClientStatesOld) (env : Env) :
    StepOld × InternalClientOld × Effects :=
  match st with
  | .SendReadRequest path mode =>
    match path.toStr with
    | none => (.panic, c, noEffects)
    | some p =>
      match env.sendRrq.map fun _ => () with
      | .error e => (.err (.Io e), c, { noEffects with rrqSends := [⟨p, mode, c.remote_addr⟩] })
      | .ok _ =>
        match env.rereg with
        | .error e => (.err (.Io e), c, { noEffects with rrqSends := [⟨p, mode, c.remote_addr⟩] })
        | .ok _ =>
          (.ok (.ReceivingData 1), c,
           { noEffects with rrqSends := [⟨p, mode, c.remote_addr⟩], reregs := [.readable] })
  | .ReceivingData current_id =>
    let recvd := c.receive_data env.recv
    match recvd.2 with
    | .err e => (.err e, recvd.1, noEffects)
    | .panic => (.panic, recvd.1, noEffects)
    | .ok none => (.ok (.ReceivingData current_id), recvd.1, noEffects)
    | .ok (some dp) =>
      if current_id = dp.packet.block_id then
        handleSendAckOld recvd.1 dp env
      else
        (.ok (.ReceivingData current_id), recvd.1, noEffects)
  | .SendAck dp => handleSendAckOld c dp env
  | .Done => (.panic, c, noEffects)

/-- What the caller of client.rs `Client::get` / the public `get` observes. -/
inductive GetRes where
  | ok : GetRes
  | err : Err → GetRes
  | panic : GetRes
  | pending : GetRes
deriving DecidableEq, Repr

/-- client.rs `Client::get` event loop, after the initial registration:
handle each delivered event in turn until `Done`, an error, or a panic. -/
def runOld (c : InternalClientOld) (st : ClientStatesOld) : List Env → GetRes
  | [] => .pending
  | env :: rest =>
    match handle_event c st env with
    | (.err e, _, _) => .err e
    | (.panic, _, _) => .panic
    | (.ok st2, c2, _) => if st2.is_done then .ok else runOld c2 st2 rest

/-- client.rs `Client::get`: registers writable interest (a failure is an
`Err` by `try!`), then runs the event loop from `SendReadRequest`. -/
def clientGetOld (path : Path) (mode : Mode) (c : InternalClientOld)
    (reg0 : Except IoError Unit) (envs : List Env) : GetRes :=
  match reg0 with
  | .error e => .err (.Io e)
  | .ok _ => runOld c (.SendReadRequest path mode) envs

/-- client.rs `pub fn get`: builds the client against the hardcoded server
address and calls `client.get(path, mode).unwrap()` — an `Err` from the
session becomes a panic, and the function returns no value either way. -/
def getOld (path : Path) (mode : Mode) (reg0 : Except IoError Unit)
    (envs : List Env) : GetRes :=
  match clientGetOld path mode (InternalClientOld.new serverAddr) reg0 envs with
  | .err _ => .panic
  | r => r

/-! ## Concrete example data used by witnesses and counterexamples -/

/-- An environment in which every external call succeeds and the triggering
event was a readable one. -/
def envAckOk : Env := ⟨.wouldBlock, .ok (some 4), .ok (some 4), .ok (), .ok (), false⟩

/-- A session state for the rotor variant with a UTF-8 path. -/
def stReadme : ClientState := ⟨⟨69⟩, ⟨some "readme.txt"⟩, Mode.Octet⟩

/-- A freshly constructed mio-variant internal client. -/
def cInit : InternalClientOld := InternalClientOld.new 69

/-- Environment delivering a Data packet with block id 5 from address 7. -/
def envMism : Env := ⟨.datagram [0, 3, 0, 5] 7, .ok (some 4), .ok (some 4), .ok (), .ok (), false⟩

/-- Environment in which sending the ack would block. -/
def envWould : Env := ⟨.wouldBlock, .ok (some 4), .ok none, .ok (), .ok (), false⟩

/-- Environment delivering a Data packet with block id 5 and payload [1, 2]
from address 7. -/
def envData : Env := ⟨.datagram [0, 3, 0, 5, 1, 2] 7, .ok (some 4), .ok (some 4), .ok (), .ok (), false⟩

/-- Environment in which sending the read request fails with I/O error 5. -/
def envRrqFail : Env := ⟨.wouldBlock, .error 5, .ok (some 4), .ok (), .ok (), true⟩

/-! ## Helper lemmas -/

/-- The rotor SendAck arm under a successful ack send, sink write and
re-registration, as a single case split on the payload length and the
triggering event kind. -/
theorem readySendAck_success (state : ClientState) (dp : DataPacketOctet) (env : Env) (k : Nat)
    (hAck : env.sendAck = .ok (some k)) (hW : env.writeRes = .ok ()) (hR : env.rereg = .ok ()) :
    readySendAck state dp env =
      if dp.data.length < 512 then
        (.done none,
         { noEffects with ackSends := [(dp.block_id, state.client.remote_addr)], writes := [dp.data] })
      else if env.isWritable then
        (.ok (.ReceivingData state ((dp.block_id + 1) % 65536)),
         { noEffects with ackSends := [(dp.block_id, state.client.remote_addr)], writes := [dp.data], reregs := [.readable] })
      else
        (.ok (.ReceivingData state ((dp.block_id + 1) % 65536)),
         { noEffects with ackSends := [(dp.block_id, state.client.remote_addr)], writes := [dp.data] }) := by
  simp only [readySendAck, InternalClient.send_ack, hAck, hW, hR, Except.map, Option.map,
    MAX_DATA_SIZE]

/-- The mio SendAck arm under a successful ack send, sink write and
re-registration, as a single case split on the payload length and the
triggering event kind. -/
theorem handleSendAckOld_success (c : InternalClientOld) (dp : DecodedPacket) (env : Env) (k : Nat)
    (hAck : env.sendAck = .ok (some k)) (hW : env.writeRes = .ok ()) (hR : env.rereg = .ok ()) :
    handleSendAckOld c dp env =
      if dp.packet.data.length < 512 then
        (.ok .Done,
         { c with buffer_ack := encodeAck dp.packet.block_id, buffer_data := some dp.buffer },
         { noEffects with ackSends := [(dp.packet.block_id, c.remote_addr)], writes := [dp.packet.data] })
      else if env.isWritable then
        (.ok (.ReceivingData ((dp.packet.block_id + 1) % 65536)),
         { c with buffer_ack := encodeAck dp.packet.block_id, buffer_data := some dp.buffer },
         { noEffects with ackSends := [(dp.packet.block_id, c.remote_addr)], writes := [dp.packet.data], reregs := [.readable] })
      else
        (.ok (.ReceivingData ((dp.packet.block_id + 1) % 65536)),
         { c with buffer_ack := encodeAck dp.packet.block_id, buffer_data := some dp.buffer },
         { noEffects with ackSends := [(dp.packet.block_id, c.remote_addr)], writes := [dp.packet.data] }) := by
  simp only [handleSendAckOld, InternalClientOld.send_ack, InternalClientOld.put_buffer_data,
    hAck, hW, hR, Except.map, Option.map, MAX_DATA_SIZE]

/-- A successful receive of a datagram records its sender as the new remote
address (rotor variant). -/
theorem receive_data_remote (c : InternalClient) (dg : List Nat) (sender : SocketAddr) :
    (c.receive_data (.datagram dg sender)).1.remote_addr = sender := by
  simp only [InternalClient.receive_data]
  split
  · split <;> rfl
  · rfl

/-- A successful receive of a datagram records its sender as the new remote
address (mio variant). -/
theorem receive_data_remote_old (c : InternalClientOld) (dg : List Nat) (sender : SocketAddr) :
    (c.receive_data (.datagram dg sender)).1.remote_addr = sender := by
  simp only [InternalClientOld.receive_data]
  split
  · split <;> rfl
  · rfl

/-- Whatever the environment answers, the SendAck arm attempts exactly one ack
send, directed at the client's current remote address. -/
theorem readySendAck_ackSends (state : ClientState) (dp : DataPacketOctet) (env : Env) :
    (readySendAck state dp env).2.ackSends = [(dp.block_id, state.client.remote_addr)] := by
  simp only [readySendAck, InternalClient.send_ack]
  rcases env.sendAck with e | o
  · simp [Except.map]
  · rcases o with _ | k
    · rcases env.rereg with e2 | u <;> simp [Except.map, Option.map]
    · rcases env.writeRes with e3 | u2 <;> rcases env.rereg with e2 | u <;>
        simp only [Except.map, Option.map] <;> cases env.isWritable <;> split <;> simp

/-! ## Claim theorems -/

/-- Claim C1: in state SendAck, once the ack succeeds and the payload is
written to the sink (and re-registration succeeds), the machine reaches the
terminal success state if and only if the payload is strictly shorter than
512 bytes; a payload of exactly 512 bytes instead moves to
ReceivingData(block_id + 1).  Both variants. -/
theorem claim_c1_short_block_terminates (stN : ClientState) (dpN : DataPacketOctet)
    (c : InternalClientOld) (dpO : DecodedPacket) (env : Env) (k : Nat)
    (hAck : env.sendAck = .ok (some k)) (hW : env.writeRes = .ok ())
    (hR : env.rereg = .ok ()) :
    (((ClientNew.ready (.SendAck stN dpN) env).1 = .done none ↔ dpN.data.length < 512) ∧
      (dpN.data.length = 512 →
        (ClientNew.ready (.SendAck stN dpN) env).1 =
          .ok (.ReceivingData stN ((dpN.block_id + 1) % 65536)))) ∧
    (((handle_event c (.SendAck dpO) env).1 = .ok .Done ↔ dpO.packet.data.length < 512) ∧
      (dpO.packet.data.length = 512 →
        (handle_event c (.SendAck dpO) env).1 =
          .ok (.ReceivingData ((dpO.packet.block_id + 1) % 65536)))) := by
  have h1 := readySendAck_success stN dpN env k hAck hW hR
  have h2 := handleSendAckOld_success c dpO env k hAck hW hR
  constructor
  · simp only [ClientNew.ready, h1]
    constructor
    · split
      · simp_all
      · cases env.isWritable <;> simp_all
    · intro hlen
      simp [hlen]
      cases env.isWritable <;> simp
  · simp only [handle_event, h2]
    constructor
    · split
      · simp_all
      · cases env.isWritable <;> simp_all
    · intro hlen
      simp [hlen]
      cases env.isWritable <;> simp

set_option maxRecDepth 8192 in
/-- Claim C1 witness: a 512-byte block with id 7, under an all-success
environment, in both variants. -/
theorem claim_c1_witness :
    (((ClientNew.ready (.SendAck stReadme ⟨7, List.replicate 512 3⟩) envAckOk).1 = .done none ↔
        (DataPacketOctet.mk 7 (List.replicate 512 3)).data.length < 512) ∧
      ((DataPacketOctet.mk 7 (List.replicate 512 3)).data.length = 512 →
        (ClientNew.ready (.SendAck stReadme ⟨7, List.replicate 512 3⟩) envAckOk).1 =
          .ok (.ReceivingData stReadme ((7 + 1) % 65536)))) ∧
    (((handle_event cInit (.SendAck ⟨⟨7, List.replicate 512 3⟩, List.replicate 516 0⟩) envAckOk).1 =
          .ok .Done ↔
        (DataPacketOctet.mk 7 (List.replicate 512 3)).data.length < 512) ∧
      ((DataPacketOctet.mk 7 (List.replicate 512 3)).data.length = 512 →
        (handle_event cInit (.SendAck ⟨⟨7, List.replicate 512 3⟩, List.replicate 516 0⟩) envAckOk).1 =
          .ok (.ReceivingData ((7 + 1) % 65536)))) :=
  claim_c1_short_block_terminates stReadme ⟨7, List.replicate 512 3⟩ cInit
    ⟨⟨7, List.replicate 512 3⟩, List.replicate 516 0⟩ envAckOk 4 rfl rfl rfl

set_option maxRecDepth 8192 in
/-- Claim C2, as the code actually behaves: a datagram carrying an Error
packet (opcode 5) makes `receive_data` hit `unimplemented!()` in both
variants, so the step panics instead of reaching a terminal Error state
carrying the server error. -/
theorem claim_c2_error_packet_panics :
    ClientNew.ready (.ReceivingData stReadme 1)
        { envAckOk with recv := .datagram [0, 5, 0, 1, 65] 7 } = (.panic, noEffects) ∧
    handle_event cInit (.ReceivingData 1)
        { envAckOk with recv := .datagram [0, 5, 0, 1, 65] 7 } =
      (.panic, ⟨7, none, List.replicate 516 0⟩, noEffects) := by
  constructor <;> rfl

set_option maxRecDepth 8192 in
/-- Claim C3, as the code actually behaves: datagrams with an unknown opcode
(9), a non-Data opcode (4, Ack), or a truncated Data header make the receive
path panic (`unimplemented!()` / `unwrap` on a failed decode) in both
variants, rather than returning a decode-failure value. -/
theorem claim_c3_unknown_opcode_panics :
    (ClientNew.ready (.ReceivingData stReadme 1)
        { envAckOk with recv := .datagram [0, 9, 0, 1] 7 }).1 = .panic ∧
    (ClientNew.ready (.ReceivingData stReadme 1)
        { envAckOk with recv := .datagram [0, 3, 0] 7 }).1 = .panic ∧
    (ClientNew.ready (.ReceivingData stReadme 1)
        { envAckOk with recv := .datagram [0, 4, 0, 1] 7 }).1 = .panic ∧
    (handle_event cInit (.ReceivingData 1)
        { envAckOk with recv := .datagram [0, 9, 0, 1] 7 }).1 = .panic ∧
    (handle_event cInit (.ReceivingData 1)
        { envAckOk with recv := .datagram [0, 3, 0] 7 }).1 = .panic :=
  ⟨rfl, rfl, rfl, rfl, rfl⟩

/-- Claim C4: a received Data packet whose block id differs from the expected
id is discarded: no ack, no sink write, and the machine stays in
ReceivingData with the same expected id.  Both variants. -/
theorem claim_c4_mismatched_block_discarded (state : ClientState) (id : Nat) (env : Env)
    (c2 : InternalClient) (dp : DataPacketOctet) (cOld c2o : InternalClientOld)
    (dpO : DecodedPacket)
    (h1 : state.client.receive_data env.recv = (c2, .ok (some dp)))
    (h2 : dp.block_id ≠ id)
    (h3 : cOld.receive_data env.recv = (c2o, .ok (some dpO)))
    (h4 : dpO.packet.block_id ≠ id) :
    ClientNew.ready (.ReceivingData state id) env =
      (.ok (.ReceivingData { state with client := c2 } id), noEffects) ∧
    handle_event cOld (.ReceivingData id) env = (.ok (.ReceivingData id), c2o, noEffects) := by
  have h2s : ¬ (id = dp.block_id) := fun h => h2 h.symm
  have h4s : ¬ (id = dpO.packet.block_id) := fun h => h4 h.symm
  constructor
  · simp only [ClientNew.ready, h1, h2s, if_false]
  · simp only [handle_event, h3, h4s, if_false]

set_option maxRecDepth 8192 in
/-- Claim C4 witness: expected id 3, received block 5 — the packet is
discarded with no effects in both variants. -/
theorem claim_c4_witness :
    ClientNew.ready (.ReceivingData stReadme 3) envMism =
      (.ok (.ReceivingData { stReadme with client := ⟨7⟩ } 3), noEffects) ∧
    handle_event cInit (.ReceivingData 3) envMism =
      (.ok (.ReceivingData 3), ⟨7, none, List.replicate 516 0⟩, noEffects) :=
  claim_c4_mismatched_block_discarded stReadme 3 envMism ⟨7⟩ ⟨5, []⟩ cInit
    ⟨7, none, List.replicate 516 0⟩ ⟨⟨5, []⟩, [0, 3, 0, 5] ++ List.replicate 512 0⟩
    rfl (by decide) rfl (by decide)

/-- Claim C5: when sending the ack would block, the machine re-registers
writable interest, stays in SendAck with the same packet, writes nothing to
the sink, and the expected block id does not advance.  Both variants. -/
theorem claim_c5_wouldblock_ack_keeps_state (state : ClientState) (dp : DataPacketOctet)
    (cOld : InternalClientOld) (dpO : DecodedPacket) (env : Env)
    (hAck : env.sendAck = .ok none) (hR : env.rereg = .ok ()) :
    ClientNew.ready (.SendAck state dp) env =
      (.ok (.SendAck state dp),
       { noEffects with ackSends := [(dp.block_id, state.client.remote_addr)], reregs := [.writable] }) ∧
    handle_event cOld (.SendAck dpO) env =
      (.ok (.SendAck dpO), { cOld with buffer_ack := encodeAck dpO.packet.block_id },
       { noEffects with ackSends := [(dpO.packet.block_id, cOld.remote_addr)], reregs := [.writable] }) := by
  constructor
  · simp only [ClientNew.ready, readySendAck, InternalClient.send_ack, hAck, hR, Except.map,
      Option.map]
  · simp only [handle_event, handleSendAckOld, InternalClientOld.send_ack, hAck, hR, Except.map,
      Option.map]

/-- Claim C5 witness: a would-block ack for block 1 keeps the machine in
SendAck with the same packet and re-registers writable interest. -/
theorem claim_c5_witness :
    ClientNew.ready (.SendAck stReadme ⟨1, [10, 20]⟩) envWould =
      (.ok (.SendAck stReadme ⟨1, [10, 20]⟩),
       { noEffects with ackSends := [(1, 69)], reregs := [.writable] }) ∧
    handle_event cInit (.SendAck ⟨⟨1, [10, 20]⟩, []⟩) envWould =
      (.ok (.SendAck ⟨⟨1, [10, 20]⟩, []⟩), { cInit with buffer_ack := encodeAck 1 },
       { noEffects with ackSends := [(1, 69)], reregs := [.writable] }) :=
  claim_c5_wouldblock_ack_keeps_state stReadme ⟨1, [10, 20]⟩ cInit ⟨⟨1, [10, 20]⟩, []⟩
    envWould rfl rfl

/-- Claim C6: after acknowledging a full 512-byte block, the next expected id
is block_id + 1 modulo 2^16; in particular block 65535 is followed by
expected id 0.  Both variants. -/
theorem claim_c6_block_id_wraps (stN : ClientState) (dpN : DataPacketOctet)
    (c : InternalClientOld) (dpO : DecodedPacket) (env : Env) (k : Nat)
    (hAck : env.sendAck = .ok (some k)) (hW : env.writeRes = .ok ()) (hR : env.rereg = .ok ())
    (hLN : dpN.data.length = 512) (hLO : dpO.packet.data.length = 512) :
    (ClientNew.ready (.SendAck stN dpN) env).1 =
      .ok (.ReceivingData stN ((dpN.block_id + 1) % 65536)) ∧
    (dpN.block_id = 65535 →
      (ClientNew.ready (.SendAck stN dpN) env).1 = .ok (.ReceivingData stN 0)) ∧
    (handle_event c (.SendAck dpO) env).1 =
      .ok (.ReceivingData ((dpO.packet.block_id + 1) % 65536)) ∧
    (dpO.packet.block_id = 65535 →
      (handle_event c (.SendAck dpO) env).1 = .ok (.ReceivingData 0)) := by
  have h1 := readySendAck_success stN dpN env k hAck hW hR
  have h2 := handleSendAckOld_success c dpO env k hAck hW hR
  have ha : (ClientNew.ready (.SendAck stN dpN) env).1 =
      .ok (.ReceivingData stN ((dpN.block_id + 1) % 65536)) := by
    simp only [ClientNew.ready, h1, hLN]
    cases env.isWritable <;> simp
  have hb : (handle_event c (.SendAck dpO) env).1 =
      .ok (.ReceivingData ((dpO.packet.block_id + 1) % 65536)) := by
    simp only [handle_event, h2, hLO]
    cases env.isWritable <;> simp
  refine ⟨ha, fun hid => ?_, hb, fun hid => ?_⟩
  · rw [ha, hid]
  · rw [hb, hid]

set_option maxRecDepth 8192 in
/-- Claim C6 witness: a full block with id 65535 is followed by expected id 0
in both variants. -/
theorem claim_c6_witness :
    ((ClientNew.ready (.SendAck stReadme ⟨65535, List.replicate 512 3⟩) envAckOk).1 =
      .ok (.ReceivingData stReadme ((65535 + 1) % 65536))) ∧
    ((65535 : Nat) = 65535 →
      (ClientNew.ready (.SendAck stReadme ⟨65535, List.replicate 512 3⟩) envAckOk).1 =
        .ok (.ReceivingData stReadme 0)) ∧
    ((handle_event cInit (.SendAck ⟨⟨65535, List.replicate 512 3⟩, List.replicate 516 0⟩) envAckOk).1 =
      .ok (.ReceivingData ((65535 + 1) % 65536))) ∧
    ((65535 : Nat) = 65535 →
      (handle_event cInit (.SendAck ⟨⟨65535, List.replicate 512 3⟩, List.replicate 516 0⟩) envAckOk).1 =
        .ok (.ReceivingData 0)) :=
  claim_c6_block_id_wraps stReadme ⟨65535, List.replicate 512 3⟩ cInit
    ⟨⟨65535, List.replicate 512 3⟩, List.replicate 516 0⟩ envAckOk 4 rfl rfl rfl rfl rfl

/-- Claim C7: a successful receive records the datagram's sender as the new
remote address (both variants), every ack and read-request send is directed
at the recorded remote address, and the ack issued for a just-received
matching block goes to that packet's sender. -/
theorem claim_c7_source_port_learning (c : InternalClient) (cOld : InternalClientOld)
    (dg : List Nat) (sender : SocketAddr) (id : Nat) (raw : Except IoError (Option Nat))
    (p : String) (m : Mode) (state : ClientState) (eid : Nat) (env : Env)
    (c2 : InternalClient) (dp : DataPacketOctet)
    (hrecv : env.recv = .datagram dg sender)
    (hdec : state.client.receive_data env.recv = (c2, .ok (some dp)))
    (hid : eid = dp.block_id) :
    (c.receive_data (.datagram dg sender)).1.remote_addr = sender ∧
    (c.send_ack id raw).2.2 = c.remote_addr ∧
    (c.send_read_request p m raw).2.dest = c.remote_addr ∧
    (cOld.receive_data (.datagram dg sender)).1.remote_addr = sender ∧
    (cOld.send_ack id raw).2.2.2 = cOld.remote_addr ∧
    (ClientNew.ready (.ReceivingData state eid) env).2.ackSends = [(dp.block_id, sender)] := by
  refine ⟨receive_data_remote c dg sender, rfl, rfl, receive_data_remote_old cOld dg sender,
    rfl, ?_⟩
  rw [hrecv] at hdec
  have hc2 : c2.remote_addr = sender := by
    have h1 := receive_data_remote state.client dg sender
    rw [hdec] at h1
    exact h1
  simp only [ClientNew.ready, hrecv, hdec, hid, if_true]
  rw [readySendAck_ackSends, hc2]

/-- Claim C7 witness: after receiving block 5 from address 7, the ack goes to
address 7, and both senders target the tracked remote address. -/
theorem claim_c7_witness :
    ((InternalClient.mk 42).receive_data (.datagram [0, 3, 0, 5, 1, 2] 7)).1.remote_addr = 7 ∧
    ((InternalClient.mk 42).send_ack 9 (.ok (some 4))).2.2 = 42 ∧
    ((InternalClient.mk 42).send_read_request "x" Mode.Octet (.ok (some 4))).2.dest = 42 ∧
    (cInit.receive_data (.datagram [0, 3, 0, 5, 1, 2] 7)).1.remote_addr = 7 ∧
    (cInit.send_ack 9 (.ok (some 4))).2.2.2 = 69 ∧
    (ClientNew.ready (.ReceivingData stReadme 5) envData).2.ackSends = [(5, 7)] :=
  claim_c7_source_port_learning ⟨42⟩ cInit [0, 3, 0, 5, 1, 2] 7 9 (.ok (some 4)) "x"
    Mode.Octet stReadme 5 envData ⟨7⟩ ⟨5, [1, 2]⟩ rfl rfl rfl

/-- Claim C8 counterexample: when the read-request send fails with an I/O
error, the mio-variant public `get` panics via `unwrap` instead of returning
an error result, and the rotor-variant public `get` returns plain unit,
discarding the error recorded in the loop context — the caller never receives
a fatal-error result value. -/
theorem claim_c8_counterexample :
    getOld ⟨some "readme.txt"⟩ Mode.Octet (.ok ()) [envRrqFail] = GetRes.panic ∧
    getNew ⟨some "readme.txt"⟩ Mode.Octet (.ok ()) [envRrqFail] = GetNewRes.unit :=
  ⟨rfl, rfl⟩

/-- Claim C8 as amended: whenever the mio-variant session ends in an error,
the public `get` panics rather than returning that error, and whenever the
rotor loop finishes — with or without a recorded error — the rotor-variant
public `get` returns unit. -/
theorem claim_c8_no_error_result (path : Path) (mode : Mode) (reg0 : Except IoError Unit)
    (envs : List Env) (e : Err) :
    (clientGetOld path mode (InternalClientOld.new serverAddr) reg0 envs = .err e →
      getOld path mode reg0 envs = .panic) ∧
    (∀ oe, runNew (.Idle ⟨⟨serverAddr⟩, path, mode⟩) envs = .finished oe →
      getNew path mode (.ok ()) envs = .unit) := by
  constructor
  · intro h; simp only [getOld, h]
  · intro oe h; simp only [getNew, h]

/-- Claim C8 witness: a failing read-request send makes the mio public `get`
panic and leaves the rotor public `get` returning unit. -/
theorem claim_c8_witness :
    getOld ⟨some "a.txt"⟩ Mode.Octet (.ok ()) [envRrqFail] = .panic ∧
    getNew ⟨some "a.txt"⟩ Mode.Octet (.ok ()) [envRrqFail] = .unit :=
  ⟨(claim_c8_no_error_result ⟨some "a.txt"⟩ Mode.Octet (.ok ()) [envRrqFail] (.Io 5)).1 rfl,
   (claim_c8_no_error_result ⟨some "a.txt"⟩ Mode.Octet (.ok ()) [envRrqFail] (.Io 5)).2
     (some (.Io 5)) rfl⟩

/-- Claim C9: whatever mode is stored in the rotor-variant session state, the
read request put on the wire carries Mode.Octet — the stored mode field is
never consulted. -/
theorem claim_c9_octet_hardcoded (state : ClientState) (env : Env) (p : String)
    (h : state.path.toStr = some p) :
    (ClientNew.ready (.Idle state) env).2.rrqSends =
      [⟨p, Mode.Octet, state.client.remote_addr⟩] := by
  simp only [ClientNew.ready, InternalClient.send_read_request, h]
  rcases env.sendRrq with e | o
  · simp [Except.map]
  · rcases env.rereg with e2 | u <;> simp [Except.map]

/-- Claim C9 witness: a session created with NetAscii mode still sends its
read request in octet mode. -/
theorem claim_c9_witness :
    (ClientNew.ready (.Idle ⟨⟨69⟩, ⟨some "readme.txt"⟩, Mode.NetAscii⟩) envAckOk).2.rrqSends =
      [⟨"readme.txt", Mode.Octet, 69⟩] :=
  claim_c9_octet_hardcoded ⟨⟨69⟩, ⟨some "readme.txt"⟩, Mode.NetAscii⟩ envAckOk "readme.txt" rfl

/-- Claim C10: a path that is not valid UTF-8 makes the request-sending step
panic (`to_str().unwrap()`) instead of producing an error result, in both
variants. -/
theorem claim_c10_nonutf8_path_panics (state : ClientState) (env : Env)
    (c : InternalClientOld) (pO : Path) (m : Mode) (env2 : Env)
    (h : state.path.toStr = none) (h2 : pO.toStr = none) :
    ClientNew.ready (.Idle state) env = (.panic, noEffects) ∧
    handle_event c (.SendReadRequest pO m) env2 = (.panic, c, noEffects) := by
  constructor
  · simp only [ClientNew.ready, h]
  · simp only [handle_event, h2]

/-- Claim C10 witness: a non-UTF-8 path (no string view) panics the initial
step of both variants. -/
theorem claim_c10_witness :
    ClientNew.ready (.Idle ⟨⟨69⟩, ⟨none⟩, Mode.Octet⟩) envAckOk = (.panic, noEffects) ∧
    handle_event cInit (.SendReadRequest ⟨none⟩ Mode.Octet) envAckOk = (.panic, cInit, noEffects) :=
  claim_c10_nonutf8_path_panics ⟨⟨69⟩, ⟨none⟩, Mode.Octet⟩ envAckOk cInit ⟨none⟩ Mode.Octet
    envAckOk rfl rfl

end Tftp
